import Mathlib

/-!
Shallow embedding of the batch email-extraction pipeline of `src/app.py`.

The pipeline: per-row URL cleaning (`pd.isna`/`str.strip` skip check,
scheme prepending), `extract_emails_from_url` (urlparse netloc check, HTTP
GET via a fetch oracle, regex email extraction, `list(set(...))` dedup),
status classification, column appending, progress reporting, and the
capped error listing.

Network I/O, HTML parsing (`BeautifulSoup(...).get_text()`) and exception
messages (`str(e)`) are abstracted into a fetch oracle
`fetch : String -> FetchResult`: the oracle returns either the extracted
page text of a 2xx response, or which exception `requests.get` /
`raise_for_status` / parsing raised, carrying its message.  Everything
after that point (regex scan, dedup, classification, formatting) is
modelled directly from the source.
-/

namespace App

/-- Boolean test that string `s` starts with `p`, over the char lists
(models Python `str.startswith` and Lean `String.startsWith`, kept on
lists so that the kernel evaluates it directly). -/
def strStartsWith (s p : String) : Bool := p.data.isPrefixOf s.data

/-- Characters removed by Python `str.strip()` with no argument
(ASCII whitespace). -/
def isPySpace (c : Char) : Bool :=
  c = ' ' || c = '\t' || c = '\n' || c = '\r' || c = '\x0b' || c = '\x0c'

/-- Python `str.strip()`: drop leading and trailing whitespace. -/
def pyStrip (s : String) : String :=
  String.mk (((s.data.dropWhile isPySpace).reverse.dropWhile isPySpace).reverse)

/-- Python `sep.join(xs)`. -/
def pyJoin (sep : String) : List String → String
  | [] => ""
  | [s] => s
  | s :: rest => s ++ sep ++ pyJoin sep rest

/-- One cell of the URL column.  `none` models a missing value
(pandas NaN), for which `pd.isna` is true; `some s` a string cell. -/
abbrev Cell := Option String

/-- Python `str(cell)`: the string itself, or `"nan"` for the missing
value (`str(float('nan'))`). -/
def cellStr : Cell → String
  | none => "nan"
  | some s => s

/-- The skip condition of the batch loop, line 118 of `src/app.py`:
`pd.isna(url) or str(url).strip() == ''`. -/
def pyIsBlank (cell : Cell) : Bool :=
  cell.isNone || pyStrip (cellStr cell) == ""

/-- Netloc characters extend until the first `/`, `?` or `#`. -/
def netlocChars (cs : List Char) : List Char :=
  cs.takeWhile (fun c => !(c = '/' || c = '?' || c = '#'))

/-- Model of `urllib.parse.urlparse(url).netloc` for the URLs this
program feeds it (which always carry an explicit `http://` or
`https://` scheme by line 26 of `src/app.py`): the substring after
`//` up to the first `/`, `?` or `#`.  A string with neither scheme has
no `//` authority marker here, hence empty netloc. -/
def netlocOf (url : String) : String :=
  if strStartsWith url "http://" then String.mk (netlocChars (url.data.drop 7))
  else if strStartsWith url "https://" then String.mk (netlocChars (url.data.drop 8))
  else ""

/-- Scheme prepending, lines 25-26 and 128-129 of `src/app.py`:
`if not url.startswith(('http://', 'https://')): url = 'https://' + url`. -/
def ensureScheme (s : String) : String :=
  if strStartsWith s "http://" || strStartsWith s "https://" then s
  else "https://" ++ s

/-! ### The email regular expression

`EMAIL_REGEX = r"[a-zA-Z0-9._%+-]+@[a-zA-Z0-9.-]+\.[a-zA-Z]{2,}"`,
scanned with `re.findall` (leftmost, non-overlapping, greedy with
backtracking).  Since `@` belongs to neither character class, a match at
a position exists iff the maximal local-part run there is followed by
`@`; the domain is the maximal domain-class run after `@`, backtracked
from the right to the last `.` that is followed by at least two ASCII
letters. -/

/-- Membership in `[a-zA-Z0-9._%+-]`. -/
def isLocalChar (c : Char) : Bool :=
  c.isAlpha || c.isDigit || c = '.' || c = '_' || c = '%' || c = '+' || c = '-'

/-- Membership in `[a-zA-Z0-9.-]`. -/
def isDomainChar (c : Char) : Bool :=
  c.isAlpha || c.isDigit || c = '.' || c = '-'

/-- Length of the maximal ASCII-letter run at the head of `cs`. -/
def letterRunLen (cs : List Char) : Nat :=
  (cs.takeWhile Char.isAlpha).length

/-- Backtracking over the maximal domain-class run `dom`: try the dot
position `m` from high to low (Python's greedy `[a-zA-Z0-9.-]+` gives
back characters one at a time); at the first `m >= 1` where `dom` has a
`.` followed by at least two letters, the match ends after that letter
run.  Returns the number of characters of `dom` consumed. -/
def domScan (dom : List Char) : Nat → Option Nat
  | 0 => none
  | m + 1 =>
    if dom.getD (m + 1) ' ' = '.' then
      let l := letterRunLen (dom.drop (m + 2))
      if 2 ≤ l then some (m + 2 + l) else domScan dom m
    else domScan dom m

/-- Attempt to match `EMAIL_REGEX` at the head of `s`.  On success,
returns the matched characters and the remainder of `s` after the
match. -/
def emailMatchAt (s : List Char) : Option (List Char × List Char) :=
  let loc := s.takeWhile isLocalChar
  let rest1 := s.dropWhile isLocalChar
  if loc.isEmpty then none
  else
    match rest1 with
    | '@' :: rest2 =>
      let dom := rest2.takeWhile isDomainChar
      let rest3 := rest2.dropWhile isDomainChar
      match domScan dom (dom.length - 1) with
      | some e => some (loc ++ '@' :: dom.take e, dom.drop e ++ rest3)
      | none => none
    | _ => none

/-- Fuelled scan of `re.findall`: at each position try a match; on
success record it and resume after the match, otherwise advance one
character.  One unit of fuel is spent per step and every step strictly
shortens the list (a match is nonempty), so fuel `s.length` suffices. -/
def findallGo : Nat → List Char → List (List Char)
  | _, [] => []
  | 0, _ :: _ => []
  | fuel + 1, s =>
    match emailMatchAt s with
    | some (m, r) => m :: findallGo fuel r
    | none => findallGo fuel s.tail

/-- `re.findall(EMAIL_REGEX, text)` over the character list of `text`. -/
def reFindall (s : List Char) : List (List Char) :=
  findallGo s.length s

/-! ### Data model of the pipeline -/

/-- What the abstracted fetch-and-parse step does for a given URL.
`ok text` is a 2xx response whose BeautifulSoup-extracted page text is
`text`; `httpError body msg` is a non-2xx response with body `body`, for
which `raise_for_status()` raises an `HTTPError` (a
`RequestException`) rendering as `msg`; `netError msg` is any other
`requests.exceptions.RequestException` (DNS, refused connection, TLS,
timeout); `otherError msg` is any other exception raised while fetching
or parsing. -/
inductive FetchResult where
  | ok (text : String)
  | httpError (body : String) (msg : String)
  | netError (msg : String)
  | otherError (msg : String)
deriving DecidableEq, Repr

/-- Return value of `extract_emails_from_url`: the dict
`{"status": "success", "emails": [...]}` or
`{"status": "error", "message": ..., "emails": []}`. -/
inductive Extraction where
  | success (emails : List String)
  | error (message : String)
deriving DecidableEq, Repr

/-- One entry of the `results` list built by the batch loop
(lines 119-123 and 146-150 of `src/app.py`). -/
structure RowResult where
  url : Cell
  emails : String
  status : String
deriving DecidableEq, Repr

/-- Body of `extract_emails_from_url` (lines 19-57), instrumented with
the number of HTTP requests it issues (0 or 1).  The function prepends
`https://` when no scheme is present, rejects URLs whose parsed netloc
is empty without fetching, and otherwise issues one GET through the
oracle; `list(set(emails))` is modelled by `List.dedup`, one admissible
iteration order of the Python set. -/
def extractT (fetch : String → FetchResult) (url0 : String) : Extraction × Nat :=
  if netlocOf (ensureScheme url0) = "" then (.error "Invalid URL format", 0)
  else
    match fetch (ensureScheme url0) with
    | .ok text => (.success (((reFindall text.data).map String.mk).dedup), 1)
    | .httpError _ msg => (.error ("Request failed: " ++ msg), 1)
    | .netError msg => (.error ("Request failed: " ++ msg), 1)
    | .otherError msg => (.error ("An error occurred: " ++ msg), 1)

/-- `extract_emails_from_url` proper: the classified outcome. -/
def extract_emails_from_url (fetch : String → FetchResult) (url : String) : Extraction :=
  (extractT fetch url).1

/-- Classification of an extraction outcome into a row result,
lines 134-150 of `src/app.py`. -/
def resultOfExtraction (url : String) : Extraction → RowResult
  | .success emails =>
    if emails.isEmpty then
      { url := some url, emails := "No emails found", status := "no emails" }
    else
      { url := some url
        emails := pyJoin " / " emails
        status := "Found " ++ toString emails.length ++ " emails" }
  | .error msg =>
    { url := some url, emails := "Error: " ++ msg, status := "error" }

/-- One iteration of the batch loop for a single cell, instrumented with
the number of HTTP requests issued for that row. -/
def processRowT (fetch : String → FetchResult) (cell : Cell) : RowResult × Nat :=
  if pyIsBlank cell then
    ({ url := cell, emails := "No URL provided", status := "skipped" }, 0)
  else
    (resultOfExtraction (ensureScheme (pyStrip (cellStr cell)))
       (extractT fetch (ensureScheme (pyStrip (cellStr cell)))).1,
     (extractT fetch (ensureScheme (pyStrip (cellStr cell)))).2)

/-- The batch loop over the remaining cells, lines 115-153 of
`src/app.py`, carrying the 0-based index `i` of the first remaining row
and the total row count.  Returns the `results` list together with the
successive arguments passed to `progress_bar.progress` — note the
`continue` in the skip branch bypasses the progress update, so skipped
rows report no progress.  The float division `(i + 1) / total_rows` is
modelled exactly in `ℚ`. -/
def batchLoop (fetch : String → FetchResult) (total : Nat) :
    Nat → List Cell → List RowResult × List ℚ
  | _, [] => ([], [])
  | i, cell :: rest =>
    if pyIsBlank cell then
      ({ url := cell, emails := "No URL provided", status := "skipped" }
         :: (batchLoop fetch total (i + 1) rest).1,
       (batchLoop fetch total (i + 1) rest).2)
    else
      (resultOfExtraction (ensureScheme (pyStrip (cellStr cell)))
          (extract_emails_from_url fetch (ensureScheme (pyStrip (cellStr cell))))
         :: (batchLoop fetch total (i + 1) rest).1,
       ((i : ℚ) + 1) / (total : ℚ) :: (batchLoop fetch total (i + 1) rest).2)

/-- The whole batch run: `results` plus the progress-fraction trace. -/
def runBatch (fetch : String → FetchResult) (rows : List Cell) :
    List RowResult × List ℚ :=
  batchLoop fetch rows.length 0 rows

/-- One row of the output table: the original row plus the two appended
columns `Extracted_Emails` and `Extraction_Status`
(lines 156-157 of `src/app.py`). -/
structure EnrichedRow (α : Type) where
  original : α
  Extracted_Emails : String
  Extraction_Status : String
deriving DecidableEq, Repr

/-- Column assignment of lines 156-157: the two result columns are
attached positionally to the original rows (`getUrl` reads the selected
URL column out of a row). -/
def enrich {α : Type} (getUrl : α → Cell) (fetch : String → FetchResult)
    (rows : List α) : List (EnrichedRow α) :=
  let results := (runBatch fetch (rows.map getUrl)).1
  rows.zipWith (fun row r => ⟨row, r.emails, r.status⟩) results

/-- The rows with status `"error"`, line 190 of `src/app.py`. -/
def errorRows (results : List RowResult) : List RowResult :=
  results.filter (fun r => r.status = "error")

/-- Rendering of one error line, line 194:
`f"- {error['url']}: {error['emails']}"`. -/
def renderErrorLine (r : RowResult) : String :=
  "- " ++ cellStr r.url ++ ": " ++ r.emails

/-- The capped error sample, line 193: the first five error rows,
rendered. -/
def errorSampleEntries (results : List RowResult) : List String :=
  ((errorRows results).take 5).map renderErrorLine

/-- The trailer of lines 195-196, emitted only when more than five
errors exist. -/
def errorTrailer (results : List RowResult) : Option String :=
  if 5 < (errorRows results).length then
    some ("... and " ++ toString ((errorRows results).length - 5) ++ " more errors")
  else none

/-- Progress trace that the amended C9 claim describes: after each
non-skipped row at 0-based position `i` the callback receives
`(i + 1) / total`; skipped rows report nothing. -/
def progressSpec (total : Nat) : Nat → List Cell → List ℚ
  | _, [] => []
  | i, c :: rest =>
    if pyIsBlank c then progressSpec total (i + 1) rest
    else ((i : ℚ) + 1) / (total : ℚ) :: progressSpec total (i + 1) rest

/-! ### Helper lemmas -/

theorem data_append (s t : String) : (s ++ t).data = s.data ++ t.data := by
  cases s; cases t; rfl

theorem isPrefixOf_self_append (p x : List Char) : p.isPrefixOf (p ++ x) = true := by
  induction p with
  | nil => simp [List.isPrefixOf]
  | cons a as ih => simp [List.isPrefixOf, ih]

theorem strStartsWith_self_append (p x : String) : strStartsWith (p ++ x) p = true := by
  unfold strStartsWith
  rw [data_append]
  exact isPrefixOf_self_append p.data x.data

theorem ensureScheme_hasScheme (s : String) :
    (strStartsWith (ensureScheme s) "http://"
      || strStartsWith (ensureScheme s) "https://") = true := by
  unfold ensureScheme
  by_cases h : (strStartsWith s "http://" || strStartsWith s "https://") = true
  · simp [h]
  · simp only [h, if_neg, Bool.or_eq_true]
    right
    exact strStartsWith_self_append "https://" s

theorem ensureScheme_of_hasScheme (s : String)
    (h : (strStartsWith s "http://" || strStartsWith s "https://") = true) :
    ensureScheme s = s := by
  unfold ensureScheme
  rw [if_pos h]

theorem ensureScheme_idem (s : String) :
    ensureScheme (ensureScheme s) = ensureScheme s :=
  ensureScheme_of_hasScheme _ (ensureScheme_hasScheme s)

theorem batchLoop_fst (fetch : String → FetchResult) (total : Nat)
    (i : Nat) (rows : List Cell) :
    (batchLoop fetch total i rows).1
      = rows.map (fun c => (processRowT fetch c).1) := by
  induction rows generalizing i with
  | nil => rfl
  | cons c rest ih =>
    by_cases h : pyIsBlank c
    · simp [batchLoop, processRowT, h, ih]
    · simp [batchLoop, processRowT, h, ih, extract_emails_from_url]

theorem batchLoop_snd (fetch : String → FetchResult) (total : Nat)
    (i : Nat) (rows : List Cell) :
    (batchLoop fetch total i rows).2 = progressSpec total i rows := by
  induction rows generalizing i with
  | nil => rfl
  | cons c rest ih =>
    by_cases h : pyIsBlank c
    · simp [batchLoop, progressSpec, h, ih]
    · simp [batchLoop, progressSpec, h, ih]

theorem extractT_success_shape (fetch : String → FetchResult) (url : String)
    (e : List String) (k : Nat)
    (h : extractT fetch url = (.success e, k)) :
    e.Nodup ∧ k = 1 := by
  unfold extractT at h
  split at h
  · simp at h
  · split at h
    · rw [Prod.mk.injEq] at h
      obtain ⟨h1, h2⟩ := h
      rw [Extraction.success.injEq] at h1
      exact ⟨h1 ▸ List.nodup_dedup _, h2.symm⟩
    · simp at h
    · simp at h
    · simp at h

/-! ### Claim theorems -/

/-- C1: for every sequence of input rows and every fetch behaviour, the
batch run produces exactly one RowResult per input row (the report
length equals the number of input rows), and the i-th result is the
result of processing the i-th input row, so results appear in the same
relative order as the inputs regardless of skip/success/failure. -/
theorem c1_one_result_per_row_in_order (fetch : String → FetchResult)
    (rows : List Cell) :
    (runBatch fetch rows).1.length = rows.length
    ∧ ∀ i : Nat,
        (runBatch fetch rows).1[i]?
          = (rows[i]?).map (fun c => (processRowT fetch c).1) := by
  constructor
  · rw [runBatch, batchLoop_fst]
    exact List.length_map ..
  · intro i
    rw [runBatch, batchLoop_fst]
    exact List.getElem?_map ..

/-- C2: for every row whose URL cell is missing (pandas NaN), empty, or
whitespace-only after stripping, the row's status is `"skipped"`, its
display string is `"No URL provided"`, no HTTP request is issued for
the row (fetch count 0), and the result is independent of the fetch
oracle (the extractor is never invoked). -/
theorem c2_blank_rows_skipped (fetch : String → FetchResult) (cell : Cell)
    (h : pyIsBlank cell = true) :
    processRowT fetch cell
        = ({ url := cell, emails := "No URL provided", status := "skipped" }, 0)
    ∧ ∀ g : String → FetchResult, processRowT g cell = processRowT fetch cell := by
  refine ⟨by simp [processRowT, h], fun g => by simp [processRowT, h]⟩

theorem c2_blank_rows_skipped_witness :
    pyIsBlank (some " \t ") = true
    ∧ processRowT (fun _ => FetchResult.ok "page a@b.com") (some " \t ")
        = ({ url := some " \t ", emails := "No URL provided", status := "skipped" }, 0) :=
  ⟨by decide,
   (c2_blank_rows_skipped (fun _ => FetchResult.ok "page a@b.com") (some " \t ")
      (by decide)).1⟩

/-- C3 (counterexample to the claim as stated): `extract_emails_from_url`
also produces the failure reason `"Invalid URL format"` (for a URL whose
parsed netloc is empty), which carries neither of the two claimed
prefixes, so the two prefixes are not the complete failure taxonomy. -/
theorem c3_counterexample :
    extract_emails_from_url (fun _ => FetchResult.ok "") "http://"
        = Extraction.error "Invalid URL format"
    ∧ strStartsWith "Invalid URL format" "Request failed: " = false
    ∧ strStartsWith "Invalid URL format" "An error occurred: " = false := by
  decide

theorem strStartsWith_request_not_anerror (m : String) :
    strStartsWith ("Request failed: " ++ m) "An error occurred: " = false := by
  cases m with
  | mk d => rfl

theorem strStartsWith_anerror_not_request (m : String) :
    strStartsWith ("An error occurred: " ++ m) "Request failed: " = false := by
  cases m with
  | mk d => rfl

/-- C3 (amended): every Failure produced by the extractor has a reason
that is either exactly `"Invalid URL format"` (empty parsed netloc,
carrying neither prefix) or starts with exactly one of the two prefixes
`"Request failed: "` (network-layer failures, including non-2xx) and
`"An error occurred: "` (any other fetch/parse failure); no reason
starts with both. -/
theorem c3_failure_reason_taxonomy (fetch : String → FetchResult)
    (url msg : String) (k : Nat)
    (h : extractT fetch url = (Extraction.error msg, k)) :
    (msg = "Invalid URL format"
      ∨ strStartsWith msg "Request failed: " = true
      ∨ strStartsWith msg "An error occurred: " = true)
    ∧ ¬(strStartsWith msg "Request failed: " = true
         ∧ strStartsWith msg "An error occurred: " = true) := by
  unfold extractT at h
  split at h
  · rw [Prod.mk.injEq] at h
    obtain ⟨h1, -⟩ := h
    rw [Extraction.error.injEq] at h1
    subst h1
    exact ⟨Or.inl rfl, by decide⟩
  · split at h
    · simp at h
    · rw [Prod.mk.injEq] at h
      obtain ⟨h1, -⟩ := h
      rw [Extraction.error.injEq] at h1
      subst h1
      refine ⟨Or.inr (Or.inl (strStartsWith_self_append ..)), ?_⟩
      rintro ⟨-, hb⟩
      rw [strStartsWith_request_not_anerror] at hb
      exact Bool.false_ne_true hb
    · rw [Prod.mk.injEq] at h
      obtain ⟨h1, -⟩ := h
      rw [Extraction.error.injEq] at h1
      subst h1
      refine ⟨Or.inr (Or.inl (strStartsWith_self_append ..)), ?_⟩
      rintro ⟨-, hb⟩
      rw [strStartsWith_request_not_anerror] at hb
      exact Bool.false_ne_true hb
    · rw [Prod.mk.injEq] at h
      obtain ⟨h1, -⟩ := h
      rw [Extraction.error.injEq] at h1
      subst h1
      refine ⟨Or.inr (Or.inr (strStartsWith_self_append ..)), ?_⟩
      rintro ⟨ha, -⟩
      rw [strStartsWith_anerror_not_request] at ha
      exact Bool.false_ne_true ha

theorem c3_failure_reason_taxonomy_witness :
    extractT (fun _ => FetchResult.netError "timeout") "a.com"
        = (Extraction.error "Request failed: timeout", 1)
    ∧ (("Request failed: timeout" = "Invalid URL format"
        ∨ strStartsWith "Request failed: timeout" "Request failed: " = true
        ∨ strStartsWith "Request failed: timeout" "An error occurred: " = true)
       ∧ ¬(strStartsWith "Request failed: timeout" "Request failed: " = true
            ∧ strStartsWith "Request failed: timeout" "An error occurred: " = true)) :=
  ⟨by decide,
   c3_failure_reason_taxonomy (fun _ => FetchResult.netError "timeout")
     "a.com" "Request failed: timeout" 1 (by decide)⟩

/-- C4 (counterexample to the claim as stated): a row whose raw URL is
just whitespace (`"   "`) is caught by the blank check of line 118 of
`src/app.py`, so its final status is `"skipped"`, not `"error"`. -/
theorem c4_counterexample :
    (processRowT (fun _ => FetchResult.ok "") (some "   ")).1.status = "skipped"
    ∧ (processRowT (fun _ => FetchResult.ok "") (some "   ")).1.status ≠ "error" := by
  decide

/-- C4 (amended): for every row whose raw URL is non-blank but
unparseable garbage (after stripping and scheme-prepending its parsed
netloc is empty, e.g. `"http://"`), the row's final status is
`"error"` and its display string starts with `"Error: "`; a
whitespace-only URL is instead skipped (see C2). -/
theorem c4_nonblank_unparseable_is_error (fetch : String → FetchResult)
    (cell : Cell)
    (hb : pyIsBlank cell = false)
    (hn : netlocOf (ensureScheme (pyStrip (cellStr cell))) = "") :
    (processRowT fetch cell).1.status = "error"
    ∧ strStartsWith (processRowT fetch cell).1.emails "Error: " = true := by
  have hrow : processRowT fetch cell
      = (resultOfExtraction (ensureScheme (pyStrip (cellStr cell)))
           (Extraction.error "Invalid URL format"), 0) := by
    simp [processRowT, hb, extractT, ensureScheme_idem, hn]
  rw [hrow]
  exact ⟨rfl, strStartsWith_self_append "Error: " "Invalid URL format"⟩

theorem c4_nonblank_unparseable_is_error_witness :
    pyIsBlank (some "http://") = false
    ∧ netlocOf (ensureScheme (pyStrip (cellStr (some "http://")))) = ""
    ∧ (processRowT (fun _ => FetchResult.ok "") (some "http://")).1.status = "error"
    ∧ strStartsWith
        (processRowT (fun _ => FetchResult.ok "") (some "http://")).1.emails
        "Error: " = true :=
  ⟨by decide, by decide,
   (c4_nonblank_unparseable_is_error (fun _ => FetchResult.ok "")
      (some "http://") (by decide) (by decide)).1,
   (c4_nonblank_unparseable_is_error (fun _ => FetchResult.ok "")
      (some "http://") (by decide) (by decide)).2⟩

/-- C10: scheme-prepending is idempotent at the public interface: a
string already starting with `http://` or `https://` is left unchanged,
every output of the prepending step carries one of the two schemes, so
the double application (once in the batch loop, once again inside
`extract_emails_from_url`) equals a single application and the
extractor's behaviour on an already-normalized URL is identical. -/
theorem c10_scheme_prepend_idempotent :
    (∀ s : String, ensureScheme (ensureScheme s) = ensureScheme s)
    ∧ (∀ s : String,
        (strStartsWith (ensureScheme s) "http://"
          || strStartsWith (ensureScheme s) "https://") = true)
    ∧ (∀ s : String,
        (strStartsWith s "http://" || strStartsWith s "https://") = true →
          ensureScheme s = s)
    ∧ (∀ (fetch : String → FetchResult) (u : String),
        extractT fetch (ensureScheme u) = extractT fetch u) := by
  refine ⟨ensureScheme_idem, ensureScheme_hasScheme, ensureScheme_of_hasScheme, ?_⟩
  intro fetch u
  unfold extractT
  rw [ensureScheme_idem]

theorem c10_scheme_prepend_idempotent_witness :
    (strStartsWith "https://x.com" "http://"
      || strStartsWith "https://x.com" "https://") = true
    ∧ ensureScheme "https://x.com" = "https://x.com" :=
  ⟨by decide, c10_scheme_prepend_idempotent.2.2.1 "https://x.com" (by decide)⟩

/-- C5: for every URL whose fetch yields a non-2xx HTTP response
(whatever the error page's body is), the extraction outcome is the same
Failure as for network-layer errors — reason `"Request failed: " ++ msg`
— the row status is `"error"`, the outcome is never a Success (in
particular not a Success with an empty email set), and the body is
never scanned (the conclusion holds uniformly in `body`, and an oracle
raising the same network-layer exception instead yields the identical
outcome). -/
theorem c5_non2xx_request_failure (fetch : String → FetchResult)
    (url body msg : String)
    (hn : netlocOf (ensureScheme url) ≠ "")
    (hf : fetch (ensureScheme url) = FetchResult.httpError body msg) :
    extractT fetch url = (Extraction.error ("Request failed: " ++ msg), 1)
    ∧ (∀ e : List String, extract_emails_from_url fetch url ≠ Extraction.success e)
    ∧ (resultOfExtraction (ensureScheme url)
        (extract_emails_from_url fetch url)).status = "error"
    ∧ strStartsWith ("Request failed: " ++ msg) "Request failed: " = true
    ∧ ∀ g : String → FetchResult,
        g (ensureScheme url) = FetchResult.netError msg →
          extractT g url = extractT fetch url := by
  have key : extractT fetch url
      = (Extraction.error ("Request failed: " ++ msg), 1) := by
    unfold extractT
    rw [if_neg hn, hf]
  refine ⟨key, ?_, ?_, strStartsWith_self_append .., ?_⟩
  · intro e hcontra
    rw [extract_emails_from_url, key] at hcontra
    exact Extraction.noConfusion hcontra
  · rw [extract_emails_from_url, key]
    rfl
  · intro g hg
    have keyg : extractT g url
        = (Extraction.error ("Request failed: " ++ msg), 1) := by
      unfold extractT
      rw [if_neg hn, hg]
    rw [keyg, key]

theorem c5_non2xx_request_failure_witness :
    netlocOf (ensureScheme "x.com") ≠ ""
    ∧ extractT (fun _ => FetchResult.httpError "<html>404</html>" "404 Client Error")
        "x.com"
        = (Extraction.error ("Request failed: " ++ "404 Client Error"), 1)
    ∧ (resultOfExtraction (ensureScheme "x.com")
        (extract_emails_from_url
          (fun _ => FetchResult.httpError "<html>404</html>" "404 Client Error")
          "x.com")).status = "error" :=
  ⟨by decide,
   (c5_non2xx_request_failure
      (fun _ => FetchResult.httpError "<html>404</html>" "404 Client Error")
      "x.com" "<html>404</html>" "404 Client Error" (by decide) rfl).1,
   (c5_non2xx_request_failure
      (fun _ => FetchResult.httpError "<html>404</html>" "404 Client Error")
      "x.com" "<html>404</html>" "404 Client Error" (by decide) rfl).2.2.1⟩

theorem resultOfExtraction_success_nil (u : String) :
    resultOfExtraction u (.success [])
      = { url := some u, emails := "No emails found", status := "no emails" } :=
  rfl

theorem resultOfExtraction_success_ne_nil (u : String) (e : List String)
    (he : e ≠ []) :
    (resultOfExtraction u (.success e)).emails = pyJoin " / " e
    ∧ (resultOfExtraction u (.success e)).status
        = "Found " ++ toString e.length ++ " emails" := by
  cases e with
  | nil => exact absurd rfl he
  | cons a rest => exact ⟨rfl, rfl⟩

/-- C6: for every fetched page text, the returned email list is the
regex match list deduplicated by exact (case-sensitive) string
equality — it has no duplicates and contains exactly the distinct
matched strings; the empty list is a valid Success (displayed
`"No emails found"`); and a non-empty list is displayed joined by the
exact literal separator `" / "`, with the status embedding its exact
length. -/
theorem c6_dedup_join (fetch : String → FetchResult) (url text : String)
    (hn : netlocOf (ensureScheme url) ≠ "")
    (hf : fetch (ensureScheme url) = FetchResult.ok text) :
    ∃ e : List String,
      extractT fetch url = (Extraction.success e, 1)
      ∧ e.Nodup
      ∧ (∀ s : String, s ∈ e ↔ s ∈ (reFindall text.data).map String.mk)
      ∧ (e = [] →
          resultOfExtraction (ensureScheme url) (Extraction.success e)
            = { url := some (ensureScheme url), emails := "No emails found",
                status := "no emails" })
      ∧ (e ≠ [] →
          (resultOfExtraction (ensureScheme url) (Extraction.success e)).emails
              = pyJoin " / " e
          ∧ (resultOfExtraction (ensureScheme url) (Extraction.success e)).status
              = "Found " ++ toString e.length ++ " emails") := by
  refine ⟨((reFindall text.data).map String.mk).dedup, ?_, List.nodup_dedup _,
    fun s => List.mem_dedup, ?_, ?_⟩
  · unfold extractT
    rw [if_neg hn, hf]
  · intro he
    rw [he]
    exact resultOfExtraction_success_nil _
  · intro he
    exact resultOfExtraction_success_ne_nil _ _ he

theorem c6_dedup_join_witness :
    netlocOf (ensureScheme "a.com") ≠ ""
    ∧ (∃ e : List String,
        extractT
          (fun _ => FetchResult.ok "Contact: a@b.com, also A@b.com and a@b.com")
          "a.com"
            = (Extraction.success e, 1)
        ∧ e.Nodup
        ∧ (∀ s : String,
            s ∈ e ↔
              s ∈ (reFindall
                    "Contact: a@b.com, also A@b.com and a@b.com".data).map String.mk)
        ∧ (e = [] →
            resultOfExtraction (ensureScheme "a.com") (Extraction.success e)
              = { url := some (ensureScheme "a.com"), emails := "No emails found",
                  status := "no emails" })
        ∧ (e ≠ [] →
            (resultOfExtraction (ensureScheme "a.com")
                (Extraction.success e)).emails = pyJoin " / " e
            ∧ (resultOfExtraction (ensureScheme "a.com")
                (Extraction.success e)).status
                = "Found " ++ toString e.length ++ " emails"))
    ∧ extractT
        (fun _ => FetchResult.ok "Contact: a@b.com, also A@b.com and a@b.com")
        "a.com"
          = (Extraction.success ["A@b.com", "a@b.com"], 1) :=
  ⟨by decide,
   c6_dedup_join
     (fun _ => FetchResult.ok "Contact: a@b.com, also A@b.com and a@b.com")
     "a.com" "Contact: a@b.com, also A@b.com and a@b.com" (by decide) rfl,
   by decide⟩

theorem zipWith_self_eq_map {α β : Type} (f : α → α → β) (l : List α) :
    List.zipWith f l l = l.map (fun a => f a a) := by
  induction l with
  | nil => rfl
  | cons a rest ih => simp [ih]

theorem enrich_eq_map {α : Type} (getUrl : α → Cell)
    (fetch : String → FetchResult) (rows : List α) :
    enrich getUrl fetch rows
      = rows.map (fun row =>
          ⟨row, (processRowT fetch (getUrl row)).1.emails,
           (processRowT fetch (getUrl row)).1.status⟩) := by
  unfold enrich runBatch
  rw [batchLoop_fst, List.map_map, List.zipWith_map_right, zipWith_self_eq_map]
  rfl

/-- C7: the output table is the input table with exactly the two
appended columns `Extracted_Emails` and `Extraction_Status`, every
original row passing through unchanged in its position, and the status
column takes only the literal values `"skipped"`,
`"Found {n} emails"` with `n` the exact count of the (deduplicated)
emails found, `"no emails"`, and `"error"`. -/
theorem c7_enriched_table {α : Type} (getUrl : α → Cell)
    (fetch : String → FetchResult) (rows : List α) :
    (enrich getUrl fetch rows).length = rows.length
    ∧ (∀ i : Nat,
        ((enrich getUrl fetch rows)[i]?).map EnrichedRow.original = rows[i]?)
    ∧ (∀ (i : Nat) (row : α), rows[i]? = some row →
        (enrich getUrl fetch rows)[i]?
          = some ⟨row, (processRowT fetch (getUrl row)).1.emails,
                  (processRowT fetch (getUrl row)).1.status⟩)
    ∧ (∀ cell : Cell,
        (processRowT fetch cell).1.status = "skipped"
        ∨ (processRowT fetch cell).1.status = "no emails"
        ∨ (processRowT fetch cell).1.status = "error"
        ∨ ∃ e : List String,
            extract_emails_from_url fetch (ensureScheme (pyStrip (cellStr cell)))
              = Extraction.success e
            ∧ e ≠ [] ∧ e.Nodup
            ∧ (processRowT fetch cell).1.status
              = "Found " ++ toString e.length ++ " emails") := by
  rw [enrich_eq_map]
  refine ⟨List.length_map .., ?_, ?_, ?_⟩
  · intro i
    rw [List.getElem?_map]
    cases rows[i]? <;> rfl
  · intro i row h
    rw [List.getElem?_map, h]
    rfl
  · intro cell
    by_cases hb : pyIsBlank cell
    · left
      simp [processRowT, hb]
    · rcases hx : extractT fetch (ensureScheme (pyStrip (cellStr cell)))
        with ⟨ex, k⟩
      cases ex with
      | error m =>
        right; right; left
        simp [processRowT, hb, hx, resultOfExtraction]
      | success e =>
        cases e with
        | nil =>
          right; left
          simp [processRowT, hb, hx, resultOfExtraction]
        | cons a rest =>
          right; right; right
          refine ⟨a :: rest, ?_, by simp, (extractT_success_shape _ _ _ _ hx).1, ?_⟩
          · rw [extract_emails_from_url, hx]
          · simp [processRowT, hb, hx, resultOfExtraction]

theorem c7_enriched_table_witness :
    (([(("r", some "a.com") : String × Cell)])[0]? = some ("r", some "a.com"))
    ∧ (enrich Prod.snd (fun _ => FetchResult.ok "hi a@b.com")
        [(("r", some "a.com") : String × Cell)])[0]?
        = some ⟨("r", some "a.com"),
            (processRowT (fun _ => FetchResult.ok "hi a@b.com")
              (some "a.com")).1.emails,
            (processRowT (fun _ => FetchResult.ok "hi a@b.com")
              (some "a.com")).1.status⟩ :=
  ⟨by decide,
   (c7_enriched_table Prod.snd (fun _ => FetchResult.ok "hi a@b.com")
      [(("r", some "a.com") : String × Cell)]).2.2.1 0 ("r", some "a.com")
      (by decide)⟩

/-- C8 (counterexample to the claim as stated): the error sample lines
are rendered by line 194 of `src/app.py` as `"- <url>: <emails>"`, not
as `"<url> - <emails>"`: for a batch whose single row errors, the one
sample entry differs from the rendering the claim states. -/
theorem c8_counterexample :
    errorSampleEntries (runBatch (fun _ => FetchResult.ok "") [some "http://"]).1
        = ["- http://: Error: Invalid URL format"]
    ∧ "- http://: Error: Invalid URL format"
        ≠ "http:// - " ++ "Error: Invalid URL format" := by
  decide

/-- C8 (amended): for every batch report, the error sample lists the
first `min(5, total_errors)` results whose status is `"error"`, each
rendered as `"- <url>: <emails_display>"`, and when `total_errors > 5`
a literal trailer `"... and N more errors"` is emitted with
`N = total_errors - 5` (and no trailer otherwise). -/
theorem c8_error_sample (results : List RowResult) :
    (errorSampleEntries results).length = min 5 (errorRows results).length
    ∧ (∀ j : Nat, j < 5 →
        (errorSampleEntries results)[j]?
          = ((errorRows results)[j]?).map renderErrorLine)
    ∧ (5 < (errorRows results).length →
        errorTrailer results
          = some ("... and " ++ toString ((errorRows results).length - 5)
              ++ " more errors"))
    ∧ ((errorRows results).length ≤ 5 → errorTrailer results = none) := by
  refine ⟨?_, ?_, ?_, ?_⟩
  · rw [errorSampleEntries, List.length_map, List.length_take]
  · intro j hj
    rw [errorSampleEntries, List.getElem?_map, List.getElem?_take, if_pos hj]
  · intro h
    rw [errorTrailer, if_pos h]
  · intro h
    rw [errorTrailer, if_neg (Nat.not_lt.mpr h)]

theorem c8_error_sample_witness :
    (5 < (errorRows
          (List.replicate 7
            { url := some "u", emails := "Error: boom", status := "error" })).length)
    ∧ errorTrailer
        (List.replicate 7
          { url := some "u", emails := "Error: boom", status := "error" })
        = some ("... and "
            ++ toString
                ((errorRows
                  (List.replicate 7
                    { url := some "u", emails := "Error: boom",
                      status := "error" })).length - 5)
            ++ " more errors") :=
  ⟨by decide,
   (c8_error_sample
      (List.replicate 7
        { url := some "u", emails := "Error: boom", status := "error" })).2.2.1
      (by decide)⟩

/-- C9 (counterexample to the claim as stated): the progress callback is
not invoked after every row — the `continue` on the skip branch of
line 124 of `src/app.py` bypasses the progress update of line 153, so a
batch with one blank row issues zero progress invocations. -/
theorem c9_counterexample :
    (runBatch (fun _ => FetchResult.ok "") [(none : Cell)]).2 = []
    ∧ (runBatch (fun _ => FetchResult.ok "") [(none : Cell)]).2.length
        ≠ [(none : Cell)].length := by
  decide

/-- C9 (amended): the progress callback is invoked only after each
non-skipped row, with fraction `(i + 1) / total_rows` where `i` is the
row's 0-based position; when the total number of rows is zero the loop
body never runs, so no callback is issued and no division by zero
occurs (the zero case is guarded by the loop being empty, not by an
explicit check). -/
theorem c9_progress_trace (fetch : String → FetchResult) (rows : List Cell) :
    (runBatch fetch rows).2 = progressSpec rows.length 0 rows
    ∧ (rows = [] → (runBatch fetch rows).2 = []) := by
  refine ⟨by rw [runBatch, batchLoop_snd], ?_⟩
  intro h
  subst h
  rfl

theorem c9_progress_trace_witness :
    (runBatch (fun _ => FetchResult.ok "") ([] : List Cell)).2
        = progressSpec ([] : List Cell).length 0 []
    ∧ (runBatch (fun _ => FetchResult.ok "") ([] : List Cell)).2 = [] :=
  ⟨(c9_progress_trace (fun _ => FetchResult.ok "") []).1,
   (c9_progress_trace (fun _ => FetchResult.ok "") []).2 rfl⟩

end App
